import Mathlib

/-!
Shallow embedding of `src/include/cudacpp/Vector4.h` (the cudacpp `Vector4<T>`
templated class) and proofs about its specified behaviour.

The C++ class holds four public fields `x y z w` of the element type `T`.
We model it as a Lean structure; machine values of the element types are
modelled as `Int` (for `int`), `Nat`-bounded `Int` ranges where representability
matters, and `ℚ` for the exact values of `float`/`double` appearing in the
claims (all of which are exactly representable in both formats).
-/

/-- Modelled from the spec: the external two-component tuple type `Vector2<T>`
(declared in `Vector2.h`, not under `src/`), exposing two public fields `x`
and `y` of the element type. -/
structure cudacpp.Vector2 (α : Type) where
  x : α
  y : α

/-- Modelled from the spec: the external three-component tuple type
`Vector3<T>` (declared in `Vector3.h`, not under `src/`), exposing three
public fields `x`, `y` and `z` of the element type. -/
structure cudacpp.Vector3 (α : Type) where
  x : α
  y : α
  z : α

/-- The `Vector4<T>` class of `Vector4.h`: four public fields `x y z w` of the
element type, stored in declared order. -/
structure cudacpp.Vector4 (α : Type) where
  x : α
  y : α
  z : α
  w : α

/-- The four-argument constructor
`Vector4(const T & tx, const T & ty, const T & tz, const T & tw)`.
Its initializer list in the source is `x(tx), y(ty), z(ty), w(tw)`:
the third field is initialized from `ty`, not `tz`, and `tz` is unused.
The embedding reproduces this verbatim. -/
def cudacpp.Vector4.mk4 {α : Type} (tx ty tz tw : α) : cudacpp.Vector4 α :=
  { x := tx, y := ty, z := ty, w := tw }

/-- The widening constructor `Vector4(const Vector2<T> & rhs)`:
`x(rhs.x), y(rhs.y), z(0), w(0)`. -/
def cudacpp.Vector4.ofVector2 {α : Type} [Zero α] (rhs : cudacpp.Vector2 α) : cudacpp.Vector4 α :=
  { x := rhs.x, y := rhs.y, z := 0, w := 0 }

/-- The widening constructor `Vector4(const Vector3<T> & rhs)`:
`x(rhs.x), y(rhs.y), z(rhs.z), w(0)`. -/
def cudacpp.Vector4.ofVector3 {α : Type} [Zero α] (rhs : cudacpp.Vector3 α) : cudacpp.Vector4 α :=
  { x := rhs.x, y := rhs.y, z := rhs.z, w := 0 }

/-- The converting copy constructor
`template <typename T2> Vector4(const Vector4<T2> & rhs)`:
each field is initialized element-wise from the corresponding field of `rhs`,
under the implicit conversion `T2 → T`, modelled as the function `conv`. -/
def cudacpp.Vector4.ofVector4 {α β : Type} (conv : α → β) (rhs : cudacpp.Vector4 α) : cudacpp.Vector4 β :=
  { x := conv rhs.x, y := conv rhs.y, z := conv rhs.z, w := conv rhs.w }

/-- The assignment operator `operator = (const Vector2<T> & rhs)`: it sets
`x = rhs.x; y = rhs.y; z = w = 0;` and ends with `return *this`. The result
pair is (new value of the receiver, value returned by the operator); the
source returns a reference to the receiver, so the two components coincide. -/
def cudacpp.Vector4.assignFromVector2 {α : Type} [Zero α] (v : cudacpp.Vector4 α)
    (rhs : cudacpp.Vector2 α) : cudacpp.Vector4 α × cudacpp.Vector4 α :=
  let vNew : cudacpp.Vector4 α := { v with x := rhs.x, y := rhs.y, z := 0, w := 0 }
  (vNew, vNew)

/-- The assignment operator `operator = (const Vector3<T> & rhs)`: it sets
`x = rhs.x; y = rhs.y; z = rhs.z; w = 0;` and ends with `return *this`. -/
def cudacpp.Vector4.assignFromVector3 {α : Type} [Zero α] (v : cudacpp.Vector4 α)
    (rhs : cudacpp.Vector3 α) : cudacpp.Vector4 α × cudacpp.Vector4 α :=
  let vNew : cudacpp.Vector4 α := { v with x := rhs.x, y := rhs.y, z := rhs.z, w := 0 }
  (vNew, vNew)

/-- The converting assignment operator
`template <typename T2> operator = (const Vector4<T2> & rhs)`: element-wise
assignment of all four fields under the implicit conversion `conv : T2 → T`,
ending with `return *this`. -/
def cudacpp.Vector4.assignFromVector4 {α β : Type} (conv : β → α) (v : cudacpp.Vector4 α)
    (rhs : cudacpp.Vector4 β) : cudacpp.Vector4 α × cudacpp.Vector4 α :=
  let vNew : cudacpp.Vector4 α :=
    { v with x := conv rhs.x, y := conv rhs.y, z := conv rhs.z, w := conv rhs.w }
  (vNew, vNew)

/-- The in-bounds behaviour of `operator [] (const int index)`, which returns
`*(&x + index)`. Under the contiguous declared-order layout of the four
fields, index `i ∈ {0,1,2,3}` addresses the `i`-th declared field. -/
def cudacpp.Vector4.get {α : Type} (v : cudacpp.Vector4 α) : Fin 4 → α
  | ⟨0, _⟩ => v.x
  | ⟨1, _⟩ => v.y
  | ⟨2, _⟩ => v.z
  | ⟨3, _⟩ => v.w

/-- Writing through the mutable `operator []`: storing `a` through the
reference `*(&x + index)` overwrites exactly the `index`-th declared field. -/
def cudacpp.Vector4.set {α : Type} (v : cudacpp.Vector4 α) : Fin 4 → α → cudacpp.Vector4 α
  | ⟨0, _⟩, a => { v with x := a }
  | ⟨1, _⟩, a => { v with y := a }
  | ⟨2, _⟩, a => { v with z := a }
  | ⟨3, _⟩, a => { v with w := a }

/-- Total embedding of `operator [] (const int index)` over all `int` indices:
indices 0..3 return the corresponding field; any other index is undefined
behaviour in the source (unchecked pointer arithmetic), modelled as `none`. -/
def cudacpp.Vector4.getChecked {α : Type} (v : cudacpp.Vector4 α) (index : Int) : Option α :=
  if index = 0 then some v.x
  else if index = 1 then some v.y
  else if index = 2 then some v.z
  else if index = 3 then some v.w
  else none

/-- The body of `toString()`:
`sprintf(buf, ("Vector4(" + fmt + "," + fmt + "," + fmt + "," + fmt + ")").c_str(), x, y, z, w)`,
parameterized by the rendering of a single element under the per-type format
string (`render` models one `fmt` conversion applied to one field). -/
def cudacpp.Vector4.toStringWith {α : Type} (render : α → String) (v : cudacpp.Vector4 α) : String :=
  "Vector4(" ++ render v.x ++ "," ++ render v.y ++ "," ++ render v.z ++ ","
    ++ render v.w ++ ")"

/-- Rendering of one `int` field under the `"%d"` format: decimal digits with
a leading minus sign for negative values, no padding. -/
def renderInt (n : Int) : String := toString n

/-- Specialization of `toString()` at element type `int` (format `"%d"`). -/
def cudacpp.Vector4.toStringInt (v : cudacpp.Vector4 Int) : String :=
  v.toStringWith renderInt

/-- The element-type tags that the `formatString` template specializations of
the source distinguish: `int`, `unsigned int`, `float`, `double`, and every
other element type (handled by the unspecialized template). -/
inductive ElemType : Type where
  | int : ElemType
  | uint : ElemType
  | float : ElemType
  | double : ElemType
  | other : ElemType

/-- The `formatString()` member and its specializations at the bottom of
`Vector4.h`: the unspecialized template returns `"%d"`, and `int`,
`unsigned int`, `float`, `double` return `"%d"`, `"%u"`, `"%f"`, `"%lf"`. -/
def formatString : ElemType → String
  | .int => "%d"
  | .uint => "%u"
  | .float => "%f"
  | .double => "%lf"
  | .other => "%d"

/-- Modelled from the spec: the implicit conversion from `float` to `double`.
Every `float` value is exactly representable as a `double`, so on the exact
rational values used in the claims the conversion is value-preserving, i.e.
the identity on the rational model. -/
def floatToDouble : ℚ → ℚ := id

/-- Claim C1 (code_bug evaluation): the four-argument constructor does NOT
assign its arguments positionally. At the concrete input (1,2,3,4) the
constructed value is (1,2,2,4): the third field holds the second argument,
because the source initializer list reads `z(ty)` while the constructor's own
documentation says `tz` is assigned to `this->z`. -/
theorem c1_constructor_code_bug :
    cudacpp.Vector4.mk4 (1 : Int) 2 3 4 = { x := 1, y := 2, z := 2, w := 4 } ∧
    (cudacpp.Vector4.mk4 (1 : Int) 2 3 4).z ≠ 3 :=
  ⟨rfl, by decide⟩

/-- Claim C2 (code_bug evaluation): `toString()` on the `Vector4<int>` built
by the four-argument constructor from 1,2,3,4 renders "Vector4(1,2,2,4)",
not "Vector4(1,2,3,4)", because the constructor assigns the second argument
to the third field. -/
theorem c2_toString_code_bug :
    cudacpp.Vector4.toStringInt (cudacpp.Vector4.mk4 1 2 3 4) = "Vector4(1,2,2,4)" ∧
    cudacpp.Vector4.toStringInt (cudacpp.Vector4.mk4 1 2 3 4) ≠ "Vector4(1,2,3,4)" := by
  constructor
  · rfl
  · decide

/-- Claim C3 counterexample: the 50-byte scratch buffer is NOT large enough
for all representable `int` field values. With all four fields equal to
`-2^31` (the minimum value representable by a 32-bit `int`), the rendered
text "Vector4(-2147483648,-2147483648,-2147483648,-2147483648)" has 56
characters, so with the terminating NUL it needs 57 bytes, exceeding 50. -/
theorem c3_buffer_counterexample :
    -(2 ^ 31) ≤ (-(2 ^ 31) : Int) ∧ (-(2 ^ 31) : Int) < 2 ^ 31 ∧
    (cudacpp.Vector4.toStringInt
        { x := -(2 ^ 31), y := -(2 ^ 31), z := -(2 ^ 31), w := -(2 ^ 31) }).length = 56 ∧
    50 < (cudacpp.Vector4.toStringInt
        { x := -(2 ^ 31), y := -(2 ^ 31), z := -(2 ^ 31), w := -(2 ^ 31) }).length + 1 := by
  refine ⟨le_refl _, by decide, ?_, ?_⟩ <;> decide

/-- Claim C3 amended: the 50-byte buffer (49 characters plus NUL) holds the
rendered "Vector4(a,b,c,d)" exactly when the four rendered field values fit
in the 37 characters left after the fixed 12 characters of punctuation; in
particular it suffices whenever the renderings of the four `int` fields total
at most 37 characters, but not for all representable `int` values. -/
theorem c3_buffer_amended (a b c d : Int)
    (h : (renderInt a).length + (renderInt b).length + (renderInt c).length
        + (renderInt d).length ≤ 37) :
    (cudacpp.Vector4.toStringInt { x := a, y := b, z := c, w := d }).length + 1 ≤ 50 := by
  have h8 : ("Vector4(" : String).length = 8 := rfl
  have hc : ("," : String).length = 1 := rfl
  have hp : (")" : String).length = 1 := rfl
  simp only [cudacpp.Vector4.toStringInt, cudacpp.Vector4.toStringWith,
    String.length_append, h8, hc, hp]
  omega

/-- Witness for the amended Claim C3, at the all-zero tuple. -/
theorem c3_buffer_amended_witness :
    ((renderInt 0).length + (renderInt 0).length + (renderInt 0).length
        + (renderInt 0).length ≤ 37) ∧
    (cudacpp.Vector4.toStringInt { x := 0, y := 0, z := 0, w := 0 }).length + 1 ≤ 50 :=
  ⟨by decide, c3_buffer_amended 0 0 0 0 (by decide)⟩

/-- Claim C4: indexed access agrees with the named fields. Reading index
0,1,2,3 yields x,y,z,w respectively, and after writing `a` through the
mutable access at index i, the i-th named field reads back `a`. -/
theorem c4_index_matches_fields (α : Type) (v : cudacpp.Vector4 α) (a : α) :
    (v.get 0 = v.x ∧ v.get 1 = v.y ∧ v.get 2 = v.z ∧ v.get 3 = v.w) ∧
    ((v.set 0 a).x = a ∧ (v.set 1 a).y = a ∧ (v.set 2 a).z = a ∧ (v.set 3 a).w = a) :=
  ⟨⟨rfl, rfl, rfl, rfl⟩, ⟨rfl, rfl, rfl, rfl⟩⟩

/-- Claim C5: widening construction and assignment from the two- and
three-component tuples copy the existing components in order and zero-fill
the missing trailing components. -/
theorem c5_widening_zero_fill (α : Type) [Zero α] (p q r : α) (v : cudacpp.Vector4 α) :
    cudacpp.Vector4.ofVector2 { x := p, y := q } =
      ({ x := p, y := q, z := 0, w := 0 } : cudacpp.Vector4 α) ∧
    cudacpp.Vector4.ofVector3 { x := p, y := q, z := r } =
      ({ x := p, y := q, z := r, w := 0 } : cudacpp.Vector4 α) ∧
    (v.assignFromVector2 { x := p, y := q }).1 =
      ({ x := p, y := q, z := 0, w := 0 } : cudacpp.Vector4 α) ∧
    (v.assignFromVector3 { x := p, y := q, z := r }).1 =
      ({ x := p, y := q, z := r, w := 0 } : cudacpp.Vector4 α) :=
  ⟨rfl, rfl, rfl, rfl⟩

/-- Claim C6: cross-element-type construction is element-wise under the
implicit conversion; converting the float tuple (1.5, 2.5, 3.5, 4.5) to
double (modelled on exact rational values) is lossless, and converting a
`Vector4<int>` to `Vector4<int>` is the identity field for field. -/
theorem c6_cross_type_element_wise :
    (∀ (α β : Type) (conv : α → β) (v : cudacpp.Vector4 α),
        cudacpp.Vector4.ofVector4 conv v =
          { x := conv v.x, y := conv v.y, z := conv v.z, w := conv v.w }) ∧
    cudacpp.Vector4.ofVector4 floatToDouble { x := 3/2, y := 5/2, z := 7/2, w := 9/2 } =
      ({ x := 3/2, y := 5/2, z := 7/2, w := 9/2 } : cudacpp.Vector4 ℚ) ∧
    (∀ v : cudacpp.Vector4 Int, cudacpp.Vector4.ofVector4 (fun n => n) v = v) :=
  ⟨fun _ _ _ _ => rfl, rfl, fun _ => rfl⟩

/-- Claim C7: every assignment operator returns the receiver (its returned
value equals the receiver's new value), and chained assignment
`c = (b = a)` between same-type four-component tuples leaves both b and c
equal to a. -/
theorem c7_assignment_returns_receiver :
    (∀ (α : Type) (inst : Zero α) (v : cudacpp.Vector4 α) (r2 : cudacpp.Vector2 α),
        (v.assignFromVector2 r2).2 = (v.assignFromVector2 r2).1) ∧
    (∀ (α : Type) (inst : Zero α) (v : cudacpp.Vector4 α) (r3 : cudacpp.Vector3 α),
        (v.assignFromVector3 r3).2 = (v.assignFromVector3 r3).1) ∧
    (∀ (α β : Type) (conv : β → α) (v : cudacpp.Vector4 α) (rhs : cudacpp.Vector4 β),
        (v.assignFromVector4 conv rhs).2 = (v.assignFromVector4 conv rhs).1) ∧
    (∀ (α : Type) (a b c : cudacpp.Vector4 α),
        (b.assignFromVector4 (fun t => t) a).1 = a ∧
        (c.assignFromVector4 (fun t => t) (b.assignFromVector4 (fun t => t) a).2).1 = a) :=
  ⟨fun _ _ _ _ => rfl, fun _ _ _ _ => rfl, fun _ _ _ _ _ => rfl,
    fun _ _ _ _ => ⟨rfl, rfl⟩⟩

/-- Claim C8: the format string is selected per element type: `int` and any
unspecialized element type use the signed decimal format "%d", `unsigned int`
uses "%u", `float` uses "%f" and `double` uses "%lf"; in particular the
floating formats differ from the integer format. -/
theorem c8_formatString_table :
    formatString ElemType.int = "%d" ∧ formatString ElemType.uint = "%u" ∧
    formatString ElemType.float = "%f" ∧ formatString ElemType.double = "%lf" ∧
    formatString ElemType.other = formatString ElemType.int ∧
    formatString ElemType.float ≠ formatString ElemType.int ∧
    formatString ElemType.double ≠ formatString ElemType.int := by
  refine ⟨rfl, rfl, rfl, rfl, rfl, ?_, ?_⟩ <;> decide

/-- Claim C9: indexed access is defined (returns a field) exactly for
indices 0, 1, 2, 3, mapping to x, y, z, w; for every other `int` index the
unchecked access has no defined result. -/
theorem c9_unchecked_index_contract (α : Type) (v : cudacpp.Vector4 α) (index : Int) :
    (v.getChecked 0 = some v.x ∧ v.getChecked 1 = some v.y ∧
     v.getChecked 2 = some v.z ∧ v.getChecked 3 = some v.w) ∧
    ((v.getChecked index).isSome = true ↔ 0 ≤ index ∧ index ≤ 3) := by
  refine ⟨⟨rfl, rfl, rfl, rfl⟩, ?_⟩
  unfold cudacpp.Vector4.getChecked
  split_ifs with h0 h1 h2 h3 <;> simp <;> omega

/-- Claim C10: writing through the mutable indexed access is
frame-preserving: storing a value at index i leaves every other index (hence
every other named field) unchanged. -/
theorem c10_set_frame (α : Type) (v : cudacpp.Vector4 α) (i j : Fin 4) (a : α)
    (h : j ≠ i) : (v.set i a).get j = v.get j := by
  fin_cases i <;> fin_cases j <;>
    simp_all [cudacpp.Vector4.set, cudacpp.Vector4.get]

/-- Witness for Claim C10: writing 9 at index 1 of (1,2,3,4) leaves index 0
unchanged. -/
theorem c10_set_frame_witness :
    ((cudacpp.Vector4.mk 1 2 3 4 : cudacpp.Vector4 Int).set 1 9).get 0 =
      (cudacpp.Vector4.mk 1 2 3 4 : cudacpp.Vector4 Int).get 0 :=
  c10_set_frame Int (cudacpp.Vector4.mk 1 2 3 4) 1 0 9 (by decide)
